import Mathlib

/-!
Verification development for the timetool repository.

The embedding models the two core components:
* `Timetool.TimeManager` — the Clock Controller of `time_manager.py`
  (system-time read/write plus the single-slot undo state), and
* `Timetool.WindowsTimeSync` — the Network Time Synchronizer of
  `ntp_client.py` (service status / enable / start, NTP-server
  configuration, forced resync, and the full sync sequence).

External OS effects (the privileged clock write, the Windows shell
commands) are abstracted as environments: a `ClockEnv` records the
privilege flag, the local time the OS would report, and the outcome of
the clock write; a `SyncEnv` records the privilege flag and an oracle
giving the `(returncode-ok, output)` result of each successive shell
command.  Each operation additionally records the OS actions / shell
commands it issued, so that "does not perform its OS action" is a
provable statement about the trace.
-/

namespace Timetool

/-- Leap-year test of the proleptic Gregorian calendar, as Python's
`datetime._is_leap`. -/
def isLeap (y : Nat) : Bool := y % 4 == 0 && (y % 100 != 0 || y % 400 == 0)

/-- Python `datetime._DAYS_IN_MONTH` (index 0 is a placeholder). -/
def DAYS_IN_MONTH : List Nat := [0, 31, 28, 31, 30, 31, 30, 31, 31, 30, 31, 30, 31]

/-- Python `datetime._DAYS_BEFORE_MONTH` (index 0 is a placeholder):
days in a non-leap year strictly before the given month. -/
def DAYS_BEFORE_MONTH : List Nat :=
  [0, 0, 31, 59, 90, 120, 151, 181, 212, 243, 273, 304, 334]

/-- Python `datetime._days_before_year`: days before January 1st of `y`. -/
def daysBeforeYear (y : Nat) : Nat :=
  (y - 1) * 365 + (y - 1) / 4 - (y - 1) / 100 + (y - 1) / 400

/-- Python `datetime._ymd2ord`: proleptic Gregorian ordinal of a date,
with day 1 = January 1st of year 1. -/
def toOrdinal (y m d : Nat) : Nat :=
  daysBeforeYear y + DAYS_BEFORE_MONTH.getD m 0
    + (if 2 < m && isLeap y then 1 else 0) + d

/-- Python `datetime._ord2ymd`: inverse of `toOrdinal`, via the 400/100/4/1
year-cycle decomposition and the shifted month estimate used by CPython. -/
def fromOrdinal (ord : Nat) : Nat × Nat × Nat :=
  let n0 := ord - 1
  let n400 := n0 / 146097
  let n0 := n0 % 146097
  let n100 := n0 / 36524
  let n0 := n0 % 36524
  let n4 := n0 / 1461
  let n0 := n0 % 1461
  let n1 := n0 / 365
  let n0 := n0 % 365
  let year := n400 * 400 + 1 + n100 * 100 + n4 * 4 + n1
  if n1 == 4 || n100 == 4 then (year - 1, 12, 31)
  else
    let leap := n1 == 3 && (n4 != 24 || n100 == 3)
    let month := (n0 + 50) / 32
    let preceding := DAYS_BEFORE_MONTH.getD month 0
      + (if 2 < month && leap then 1 else 0)
    if n0 < preceding then
      let month' := month - 1
      let preceding' := preceding
        - (DAYS_IN_MONTH.getD month' 0 + (if month' == 2 && leap then 1 else 0))
      (year, month', n0 - preceding' + 1)
    else (year, month, n0 - preceding + 1)

/-- A Python naive `datetime.datetime` value: calendar fields plus a
microsecond component. -/
structure DateTime where
  year : Nat
  month : Nat
  day : Nat
  hour : Nat
  minute : Nat
  second : Nat
  microsecond : Nat
deriving DecidableEq, Repr

/-- Python `datetime._MAXORDINAL`: the ordinal of 9999-12-31, the last
date the `datetime` type represents. -/
def MAXORDINAL : Nat := 3652059

/-- Python `datetime.__add__` with a `timedelta(days, hours, minutes)`
argument: both operands are converted to microseconds since the ordinal
epoch, added, and the sum renormalised through `fromOrdinal`.  CPython
accepts the sum only when `0 < ordinal <= _MAXORDINAL` and otherwise
raises `OverflowError("result out of range")`, modelled as `none` (a
`timedelta` whose normalised day count overflows raises already at
construction, and such a delta always drives the resulting ordinal out
of this range, so the single check captures the observable behavior). -/
def addTimedelta (t : DateTime) (days hours minutes : Int) : Option DateTime :=
  let selfUs : Int :=
    ((toOrdinal t.year t.month t.day : Int) * 86400
      + (t.hour : Int) * 3600 + (t.minute : Int) * 60 + (t.second : Int)) * 1000000
      + (t.microsecond : Int)
  let deltaUs : Int := (days * 86400 + hours * 3600 + minutes * 60) * 1000000
  let total := selfUs + deltaUs
  let d := total.ediv 86400000000
  if 0 < d ∧ d ≤ (MAXORDINAL : Int) then
    let r := total.emod 86400000000
    let secs := r.ediv 1000000
    let us := r.emod 1000000
    let hour := secs.ediv 3600
    let rem := secs.emod 3600
    let ymd := fromOrdinal d.toNat
    some ⟨ymd.1, ymd.2.1, ymd.2.2, hour.toNat, (rem.ediv 60).toNat,
          (rem.emod 60).toNat, us.toNat⟩
  else none

/-- The Windows `SYSTEMTIME` record marshalled by `time_manager.py`
(`ctypes` zero-initialises every field). -/
structure SYSTEMTIME where
  wYear : Nat
  wMonth : Nat
  wDayOfWeek : Nat
  wDay : Nat
  wHour : Nat
  wMinute : Nat
  wSecond : Nat
  wMilliseconds : Nat
deriving DecidableEq, Repr

/-- OS actions the Clock Controller can perform, recorded as a trace. -/
inductive OsAction where
  | getLocalTime : OsAction
  | writeClock : SYSTEMTIME → OsAction
deriving DecidableEq, Repr

/-- Outcome of the privileged `SetSystemTime` call: the C `BOOL` result,
a nonzero result with a `GetLastError` code, or a raised exception. -/
inductive WriteOutcome where
  | ok : WriteOutcome
  | osFail : Nat → WriteOutcome
  | exn : String → WriteOutcome
deriving DecidableEq, Repr

/-- Environment of one Clock Controller operation: the elevation flag,
the `SYSTEMTIME` that `GetLocalTime` would report, and the outcome the
OS gives the clock write. -/
structure ClockEnv where
  isAdmin : Bool
  localST : SYSTEMTIME
  writeOutcome : WriteOutcome
deriving Repr

/-- The Clock Controller's mutable state: the single undo slot
`TimeManager._last_time`. -/
structure TMState where
  lastTime : Option DateTime
deriving DecidableEq, Repr

/-- `TimeManager.__init__`: the undo slot starts empty. -/
def TMState.init : TMState := ⟨none⟩

/-- Result of a Clock Controller operation: the state after the call, the
`(succeeded, message)` pair the Python method returns, and the trace of
OS actions issued during the call. -/
structure TMResult where
  state : TMState
  ok : Bool
  msg : String
  trace : List OsAction
deriving DecidableEq, Repr

namespace TimeManager

/-- `TimeManager.get_local_time` (lines 73-82): builds a `datetime` from
the `SYSTEMTIME` reported by `GetLocalTime`, with
`microsecond = wMilliseconds * 1000`. -/
def get_local_time (env : ClockEnv) : DateTime :=
  ⟨env.localST.wYear, env.localST.wMonth, env.localST.wDay,
   env.localST.wHour, env.localST.wMinute, env.localST.wSecond,
   env.localST.wMilliseconds * 1000⟩

/-- Lines 101-110 of `set_system_time`: `new_time.utctimetuple()` (whole
seconds of a naive datetime) marshalled into a `SYSTEMTIME`, with
`wMilliseconds` assigned 0 and `wDayOfWeek` left at its zero
initialisation. -/
def toSystemTime (t : DateTime) : SYSTEMTIME :=
  ⟨t.year, t.month, 0, t.day, t.hour, t.minute, t.second, 0⟩

/-- `TimeManager.can_undo`: the undo slot is occupied. -/
def can_undo (st : TMState) : Bool := st.lastTime.isSome

/-- `TimeManager.set_system_time` (lines 84-120): privilege check, then
capture of the current local time into the undo slot, then the marshalled
clock write, whose three outcomes give the three result messages. -/
def set_system_time (env : ClockEnv) (st : TMState) (newTime : DateTime) : TMResult :=
  if !env.isAdmin then ⟨st, false, "需要管理员权限才能修改系统时间", []⟩
  else
    let captured : TMState := ⟨some (get_local_time env)⟩
    let written := toSystemTime newTime
    match env.writeOutcome with
    | .ok => ⟨captured, true, "系统时间修改成功", [.getLocalTime, .writeClock written]⟩
    | .osFail code =>
        ⟨captured, false, "系统时间修改失败，错误代码: " ++ toString code,
         [.getLocalTime, .writeClock written]⟩
    | .exn e =>
        ⟨captured, false, "系统时间修改异常: " ++ e,
         [.getLocalTime, .writeClock written]⟩

/-- `TimeManager.adjust_time` (lines 122-138): read the local time, add
the `timedelta(days, hours, minutes)`, delegate to `set_system_time`.
The method has no try/except, so an `OverflowError` raised by the
addition propagates uncaught: no `(succeeded, message)` result is
returned and no state change happens, modelled as `none`. -/
def adjust_time (env : ClockEnv) (st : TMState) (days hours minutes : Int) :
    Option TMResult :=
  let current := get_local_time env
  match addTimedelta current days hours minutes with
  | none => none
  | some newTime =>
      let r := set_system_time env st newTime
      some ⟨r.state, r.ok, r.msg, .getLocalTime :: r.trace⟩

/-- `TimeManager.undo_last_change` (lines 144-152): if the undo slot is
empty, fail; otherwise clear the slot and call `set_system_time` on the
remembered value. -/
def undo_last_change (env : ClockEnv) (st : TMState) : TMResult :=
  match st.lastTime with
  | none => ⟨st, false, "没有可撤销的时间更改", []⟩
  | some t => set_system_time env ⟨none⟩ t

end TimeManager

/-- Prefix test on character lists, auxiliary to `containsStr`. -/
def startsWithChars : List Char → List Char → Bool
  | _, [] => true
  | [], _ :: _ => false
  | h :: t, n :: ns => h == n && startsWithChars t ns

/-- Substring test on character lists, auxiliary to `containsStr`. -/
def hasSubChars : List Char → List Char → Bool
  | [], needle => needle.isEmpty
  | h :: t, needle => startsWithChars (h :: t) needle || hasSubChars t needle

/-- Python's `needle in hay` substring test on strings. -/
def containsStr (hay needle : String) : Bool := hasSubChars hay.data needle.data

/-- Python `str.lower`, character by character (sufficient for the ASCII
marker texts the source compares against). -/
def lowerStr (s : String) : String := ⟨s.data.map Char.toLower⟩

/-- Environment of the Network Time Synchronizer: the elevation flag and
an oracle giving, for the n-th shell command the synchronizer executes,
the `(succeeded, output)` pair that `WindowsTimeSync._run_command` would
return for it (`returncode == 0` with stripped stdout, or a failure with
stripped stderr/stdout, timeout, or exception text). -/
structure SyncEnv where
  isAdmin : Bool
  resp : Nat → Bool × String

/-- Execution state threaded through the synchronizer: how many shell
commands have been executed so far and, in order, the command lines
issued. -/
structure ExecSt where
  idx : Nat
  issued : List String
deriving DecidableEq, Repr

/-- The initial execution state: no command issued yet. -/
def ExecSt.start : ExecSt := ⟨0, []⟩

namespace WindowsTimeSync

/-- `WindowsTimeSync.ALIYUN_NTP_SERVERS`. -/
def ALIYUN_NTP_SERVERS : List String :=
  ["ntp.aliyun.com", "ntp2.aliyun.com", "ntp3.aliyun.com"]

/-- `WindowsTimeSync._run_command`: executes one shell command, consuming
the next oracle response and recording the command line in the trace. -/
def run_command (env : SyncEnv) (cmd : String) (s : ExecSt) :
    (Bool × String) × ExecSt :=
  (env.resp s.idx, ⟨s.idx + 1, s.issued ++ [cmd]⟩)

/-- Lines 78-85 of `check_time_service_status`: the startup type derived
from the result of `sc qc w32time`. -/
def startTypeOf (p : Bool × String) : String :=
  if p.1 then
    if containsStr p.2 "DISABLED" then "已禁用"
    else if containsStr p.2 "AUTO_START" then "自动"
    else if containsStr p.2 "DEMAND_START" then "手动"
    else "未知"
  else "未知"

/-- Lines 87-95 of `check_time_service_status`: the running flag and
status message derived from the result of `sc query w32time`. -/
def runStateOf (p : Bool × String) : Bool × String :=
  if p.1 then
    if containsStr p.2 "RUNNING" then (true, "Windows 时间服务正在运行")
    else if containsStr p.2 "STOPPED" then (false, "Windows 时间服务已停止")
    else (false, "Windows 时间服务状态未知: " ++ p.2)
  else (false, "无法检查时间服务状态: " ++ p.2)

/-- `WindowsTimeSync.check_time_service_status` (lines 63-95): runs
`sc query w32time` and `sc qc w32time` (no privilege check), classifies
the startup type from the config output, and the running state from the
query output.  Returns `((isRunning, statusMsg, startType), state)`. -/
def check_time_service_status (env : SyncEnv) (s : ExecSt) :
    (Bool × String × String) × ExecSt :=
  let q := run_command env "sc query w32time" s
  let c := run_command env "sc qc w32time" q.2
  let rs := runStateOf q.1
  ((rs.1, rs.2, startTypeOf c.1), c.2)

/-- `WindowsTimeSync.enable_time_service` (lines 97-115): privilege
check, then `sc config w32time start= auto`. -/
def enable_time_service (env : SyncEnv) (s : ExecSt) : (Bool × String) × ExecSt :=
  if !env.isAdmin then ((false, "需要管理员权限才能启用时间服务"), s)
  else
    let p := run_command env "sc config w32time start= auto" s
    ((if p.1.1 then (true, "Windows 时间服务已设置为自动启动")
      else (false, "启用时间服务失败: " ++ p.1.2)), p.2)

/-- Line 145 of `start_time_service`: the output text of a failed start
command that is nevertheless treated as success. -/
def alreadyB (out : String) : Bool :=
  containsStr out "服务已经启动"
    || containsStr (lowerStr out) "service is already running"

/-- Lines 139-161 of `start_time_service`: the start attempt common to
both the enabled and the just-enabled path.  `net start w32time`; on
success or "already running" output, success; otherwise `w32tm /register`
and, only if that succeeds, a re-enable when the startup type was
disabled followed by exactly one retry of the start command. -/
def attempt_start_service (env : SyncEnv) (startType : String) (s : ExecSt) :
    (Bool × String) × ExecSt :=
  let p := run_command env "net start w32time" s
  if p.1.1 then ((true, "Windows 时间服务启动成功"), p.2)
  else if alreadyB p.1.2 then
    ((true, "Windows 时间服务已在运行"), p.2)
  else
    let reg := run_command env "w32tm /register" p.2
    if reg.1.1 then
      let s2 := if startType == "已禁用" then (enable_time_service env reg.2).2
                else reg.2
      let p2 := run_command env "net start w32time" s2
      if p2.1.1 then ((true, "重新注册并启动 Windows 时间服务成功"), p2.2)
      else ((false, "启动时间服务失败: " ++ p2.1.2), p2.2)
    else ((false, "启动时间服务失败: " ++ p.1.2), reg.2)

/-- `WindowsTimeSync.start_time_service` (lines 117-161): privilege
check; if the service is already running, succeed without a start
command; if the startup type is disabled, enable first (aborting on
failure); then the start attempt with its single re-register fallback. -/
def start_time_service (env : SyncEnv) (s : ExecSt) : (Bool × String) × ExecSt :=
  if !env.isAdmin then ((false, "需要管理员权限才能启动时间服务"), s)
  else
    let c := check_time_service_status env s
    if c.1.1 then ((true, c.1.2.1), c.2)
    else if c.1.2.2 == "已禁用" then
      let e := enable_time_service env c.2
      if !e.1.1 then ((false, "无法启用时间服务: " ++ e.1.2), e.2)
      else attempt_start_service env c.1.2.2 e.2
    else attempt_start_service env c.1.2.2 c.2

/-- The `w32tm /config` command line built on line 189 from the
comma-joined server list. -/
def configCommand (serverString : String) : String :=
  "w32tm /config /manualpeerlist:\"" ++ serverString
    ++ "\" /syncfromflags:manual /reliable:YES /update"

/-- `WindowsTimeSync.configure_ntp_server` (lines 163-201): privilege
check, ensure the service is started, default the server list only when
the argument is unset (`None`), write the configuration, restart the
service. -/
def configure_ntp_server (env : SyncEnv) (serverList : Option (List String))
    (s : ExecSt) : (Bool × String) × ExecSt :=
  if !env.isAdmin then ((false, "需要管理员权限才能配置 NTP 服务器"), s)
  else
    let st := start_time_service env s
    if !st.1.1 then ((false, "启动时间服务失败: " ++ st.1.2), st.2)
    else
      let servers := match serverList with
        | none => ALIYUN_NTP_SERVERS.take 3
        | some l => l
      let serverString := String.intercalate "," servers
      let cfg := run_command env (configCommand serverString) st.2
      if !cfg.1.1 then ((false, "配置 NTP 服务器失败: " ++ cfg.1.2), cfg.2)
      else
        let rst := run_command env "net stop w32time && net start w32time" cfg.2
        if !rst.1.1 then ((false, "重启时间服务失败: " ++ rst.1.2), rst.2)
        else ((true, "成功配置 NTP 服务器: " ++ serverString), rst.2)

/-- `WindowsTimeSync.sync_time_immediately` (lines 203-226): privilege
check, ensure the service is started, then `w32tm /resync /force`. -/
def sync_time_immediately (env : SyncEnv) (s : ExecSt) : (Bool × String) × ExecSt :=
  if !env.isAdmin then ((false, "需要管理员权限才能同步时间"), s)
  else
    let st := start_time_service env s
    if !st.1.1 then ((false, "启动时间服务失败: " ++ st.1.2), st.2)
    else
      let p := run_command env "w32tm /resync /force" st.2
      if !p.1.1 then ((false, "时间同步失败: " ++ p.1.2), p.2)
      else ((true, "时间同步成功: " ++ p.1.2), p.2)

/-- `WindowsTimeSync.get_sync_status` (lines 228-241): runs
`w32tm /query /status` (no privilege check). -/
def get_sync_status (env : SyncEnv) (s : ExecSt) : (Bool × String) × ExecSt :=
  let p := run_command env "w32tm /query /status" s
  ((if !p.1.1 then (false, "获取同步状态失败: " ++ p.1.2) else (true, p.1.2)), p.2)

/-- `WindowsTimeSync.sync_system_time` (lines 243-266): configure the
default server list; on failure abort with the wrapped message; otherwise
(after a fixed `time.sleep(2)`, stateless here) sync immediately; either
failure aborts, success concatenates both stage messages. -/
def sync_system_time (env : SyncEnv) (s : ExecSt) : (Bool × String) × ExecSt :=
  let c := configure_ntp_server env none s
  if !c.1.1 then ((false, "配置 NTP 服务器失败: " ++ c.1.2), c.2)
  else
    let sy := sync_time_immediately env c.2
    if !sy.1.1 then ((false, "时间同步失败: " ++ sy.1.2), sy.2)
    else ((true, "阿里云 NTP 时间同步成功: " ++ c.1.2 ++ "; " ++ sy.1.2), sy.2)

end WindowsTimeSync

/-! Concrete environments and states used by witnesses and
counterexamples. -/

/-- A concrete `SYSTEMTIME` as `GetLocalTime` could report it. -/
def sampleST : SYSTEMTIME := ⟨2024, 5, 2, 17, 12, 30, 45, 500⟩

/-- A concrete `datetime` argument with a nonzero sub-second component. -/
def sampleDT : DateTime := ⟨2024, 3, 10, 8, 30, 15, 250000⟩

/-- Clock environment: elevated, with a successful clock write. -/
def envAdminOk : ClockEnv := ⟨true, sampleST, .ok⟩

/-- Clock environment: not elevated. -/
def envNoAdminClock : ClockEnv := ⟨false, sampleST, .ok⟩

/-- A controller state whose undo slot is occupied. -/
def stOccupied : TMState := ⟨some ⟨2024, 1, 1, 0, 0, 0, 0⟩⟩

/-- Synchronizer environment: not elevated, every command would
succeed with output "RUNNING". -/
def envNoAdmin : SyncEnv := ⟨false, fun _ => (true, "RUNNING")⟩

/-- Synchronizer environment: elevated, every command succeeds with
output "RUNNING" (so the service always reports running). -/
def envAllOk : SyncEnv := ⟨true, fun _ => (true, "RUNNING")⟩

/-- Synchronizer environment: elevated; the service is stopped with
automatic startup, the start command fails with output "boom" (no
"already running" text), and the re-registration command fails. -/
def envC7 : SyncEnv :=
  ⟨true, fun n =>
    [(true, "STOPPED"), (true, "AUTO_START"), (false, "boom"),
     (false, "regfail")].getD n (true, "")⟩

/-- The service reports running in a fresh `start_time_service` run:
`sc query w32time` (response 0) succeeded with "RUNNING" in its output. -/
def serviceRunningB (env : SyncEnv) : Bool :=
  (env.resp 0).1 && containsStr (env.resp 0).2 "RUNNING"

/-- The startup type reads disabled in a fresh run: `sc qc w32time`
(response 1) succeeded with "DISABLED" in its output. -/
def serviceDisabledB (env : SyncEnv) : Bool :=
  (env.resp 1).1 && containsStr (env.resp 1).2 "DISABLED"

/-- Index of the oracle response consumed by the first
`net start w32time` command in a fresh run that reaches it (one more
command — the enable — precedes it when the startup type was
disabled). -/
def startRespIdx (env : SyncEnv) : Nat := if serviceDisabledB env then 3 else 2

/-- Number of `net start w32time` commands issued during a fresh
`start_time_service` run. -/
def countStart (env : SyncEnv) : Nat :=
  ((WindowsTimeSync.start_time_service env ExecSt.start).2.issued).count
    "net start w32time"

/-! Helper lemmas shared by several claim theorems. -/

/-- Helper: `check_time_service_status` in explicit form: the running
state from response `idx`, the startup type from response `idx + 1`, and
both `sc` commands recorded. -/
theorem check_eq (env : SyncEnv) (s : ExecSt) :
    WindowsTimeSync.check_time_service_status env s
      = (((WindowsTimeSync.runStateOf (env.resp s.idx)).1,
          (WindowsTimeSync.runStateOf (env.resp s.idx)).2,
          WindowsTimeSync.startTypeOf (env.resp (s.idx + 1))),
         ⟨s.idx + 2, s.issued ++ ["sc query w32time", "sc qc w32time"]⟩) := by
  simp [WindowsTimeSync.check_time_service_status, WindowsTimeSync.run_command]

/-- Helper: the running flag computed by `runStateOf` is success of the
query conjoined with the "RUNNING" marker. -/
theorem runStateOf_fst (p : Bool × String) :
    (WindowsTimeSync.runStateOf p).1 = (p.1 && containsStr p.2 "RUNNING") := by
  rcases p with ⟨b, out⟩
  cases b
  · rfl
  · cases hR : containsStr out "RUNNING"
    · cases hS : containsStr out "STOPPED" <;>
        simp [WindowsTimeSync.runStateOf, hR, hS]
    · simp [WindowsTimeSync.runStateOf, hR]

/-- Helper: the startup type equals the disabled marker exactly when the
config query succeeded with "DISABLED" in its output. -/
theorem startTypeOf_beq (p : Bool × String) :
    (WindowsTimeSync.startTypeOf p == "已禁用")
      = (p.1 && containsStr p.2 "DISABLED") := by
  rcases p with ⟨b, out⟩
  cases b
  · rfl
  · cases hD : containsStr out "DISABLED"
    · cases hA : containsStr out "AUTO_START" <;>
        cases hDe : containsStr out "DEMAND_START" <;>
          simp [WindowsTimeSync.startTypeOf, hD, hA, hDe]
    · simp [WindowsTimeSync.startTypeOf, hD]

/-- Helper: `enable_time_service` in explicit form under elevation. -/
theorem enable_eq (env : SyncEnv) (s : ExecSt) (h : env.isAdmin = true) :
    WindowsTimeSync.enable_time_service env s
      = ((if (env.resp s.idx).1
           then (true, "Windows 时间服务已设置为自动启动")
           else (false, "启用时间服务失败: " ++ (env.resp s.idx).2)),
         ⟨s.idx + 1, s.issued ++ ["sc config w32time start= auto"]⟩) := by
  cases hb : (env.resp s.idx).1 <;>
    simp [WindowsTimeSync.enable_time_service, WindowsTimeSync.run_command, h, hb]

/-- Helper: the start attempt when the start command succeeds. -/
theorem attempt_eq_ok (env : SyncEnv) (stype : String) (s : ExecSt)
    (hs : (env.resp s.idx).1 = true) :
    WindowsTimeSync.attempt_start_service env stype s
      = ((true, "Windows 时间服务启动成功"),
         ⟨s.idx + 1, s.issued ++ ["net start w32time"]⟩) := by
  simp [WindowsTimeSync.attempt_start_service, WindowsTimeSync.run_command, hs]

/-- Helper: the start attempt when the start command fails with
"already running" text, treated as success. -/
theorem attempt_eq_already (env : SyncEnv) (stype : String) (s : ExecSt)
    (hs : (env.resp s.idx).1 = false)
    (ha : WindowsTimeSync.alreadyB (env.resp s.idx).2 = true) :
    WindowsTimeSync.attempt_start_service env stype s
      = ((true, "Windows 时间服务已在运行"),
         ⟨s.idx + 1, s.issued ++ ["net start w32time"]⟩) := by
  simp [WindowsTimeSync.attempt_start_service, WindowsTimeSync.run_command, hs, ha]

/-- Helper: the start attempt when the start command fails without
"already running" text and the re-registration also fails: the original
failure is returned, with no retry. -/
theorem attempt_eq_regfail (env : SyncEnv) (stype : String) (s : ExecSt)
    (hs : (env.resp s.idx).1 = false)
    (ha : WindowsTimeSync.alreadyB (env.resp s.idx).2 = false)
    (hr : (env.resp (s.idx + 1)).1 = false) :
    WindowsTimeSync.attempt_start_service env stype s
      = ((false, "启动时间服务失败: " ++ (env.resp s.idx).2),
         ⟨s.idx + 2, s.issued ++ ["net start w32time", "w32tm /register"]⟩) := by
  simp [WindowsTimeSync.attempt_start_service, WindowsTimeSync.run_command,
    hs, ha, hr, List.append_assoc]

/-- Helper: the start attempt when the start fails, re-registration
succeeds and the startup type was not disabled: one retry, no
re-enable. -/
theorem attempt_eq_reg_nodis (env : SyncEnv) (stype : String) (s : ExecSt)
    (hs : (env.resp s.idx).1 = false)
    (ha : WindowsTimeSync.alreadyB (env.resp s.idx).2 = false)
    (hr : (env.resp (s.idx + 1)).1 = true)
    (hd : (stype == "已禁用") = false) :
    WindowsTimeSync.attempt_start_service env stype s
      = ((if (env.resp (s.idx + 2)).1
           then (true, "重新注册并启动 Windows 时间服务成功")
           else (false, "启动时间服务失败: " ++ (env.resp (s.idx + 2)).2)),
         ⟨s.idx + 3,
          s.issued ++ ["net start w32time", "w32tm /register",
                       "net start w32time"]⟩) := by
  cases h2 : (env.resp (s.idx + 2)).1 <;>
    simp [WindowsTimeSync.attempt_start_service, WindowsTimeSync.run_command,
      hs, ha, hr, hd, h2, List.append_assoc]

/-- Helper: the start attempt when the start fails, re-registration
succeeds and the startup type was disabled: the enable is re-applied and
the start retried once. -/
theorem attempt_eq_reg_dis (env : SyncEnv) (stype : String) (s : ExecSt)
    (h : env.isAdmin = true)
    (hs : (env.resp s.idx).1 = false)
    (ha : WindowsTimeSync.alreadyB (env.resp s.idx).2 = false)
    (hr : (env.resp (s.idx + 1)).1 = true)
    (hd : (stype == "已禁用") = true) :
    WindowsTimeSync.attempt_start_service env stype s
      = ((if (env.resp (s.idx + 3)).1
           then (true, "重新注册并启动 Windows 时间服务成功")
           else (false, "启动时间服务失败: " ++ (env.resp (s.idx + 3)).2)),
         ⟨s.idx + 4,
          s.issued ++ ["net start w32time", "w32tm /register",
                       "sc config w32time start= auto", "net start w32time"]⟩) := by
  cases h2 : (env.resp (s.idx + 3)).1 <;>
    simp [WindowsTimeSync.attempt_start_service,
      WindowsTimeSync.enable_time_service, WindowsTimeSync.run_command,
      h, hs, ha, hr, hd, h2, List.append_assoc]

/-- Helper: the failure message of a failed clock write never equals the
nothing-to-undo message (the marker texts differ in length). -/
theorem fail_msg_ne_nothing (s : String) :
    "系统时间修改失败，错误代码: " ++ s ≠ "没有可撤销的时间更改" := by
  intro hEq
  have hl := congrArg String.length hEq
  rw [String.length_append] at hl
  have h1 : ("系统时间修改失败，错误代码: " : String).length = 15 := by decide
  have h2 : ("没有可撤销的时间更改" : String).length = 10 := by decide
  rw [h1, h2] at hl
  omega

/-- Helper: the exception message of a clock write never equals the
nothing-to-undo message. -/
theorem exn_msg_ne_nothing (s : String) :
    "系统时间修改异常: " ++ s ≠ "没有可撤销的时间更改" := by
  intro hEq
  have hl := congrArg String.length hEq
  rw [String.length_append] at hl
  have h1 : ("系统时间修改异常: " : String).length = 10 := by decide
  have h2 : ("没有可撤销的时间更改" : String).length = 10 := by decide
  rw [h1, h2] at hl
  have hz : s.length = 0 := by omega
  have hs : s = "" := by
    rcases s with ⟨l⟩
    cases l with
    | nil => rfl
    | cons a t => simp [String.length] at hz
  subst hs
  exact absurd hEq (by decide)

/-- Helper: the undo slot after `undo_last_change` is occupied (with the
freshly observed local time) exactly when the slot was occupied before
the call and the caller is elevated; otherwise it is empty. -/
theorem undo_state_eq (env : ClockEnv) (st : TMState) :
    (TimeManager.undo_last_change env st).state =
      if TimeManager.can_undo st && env.isAdmin
      then ⟨some (TimeManager.get_local_time env)⟩ else ⟨none⟩ := by
  rcases st with ⟨_ | t⟩
  · simp [TimeManager.undo_last_change, TimeManager.can_undo]
  · rcases env with ⟨adm, l, w⟩
    cases adm
    · simp [TimeManager.undo_last_change, TimeManager.set_system_time,
        TimeManager.can_undo]
    · cases w <;>
        simp [TimeManager.undo_last_change, TimeManager.set_system_time,
          TimeManager.can_undo]

/-- Helper: `set_system_time` never reports the nothing-to-undo failure:
its three failure messages are the permission, error-code and exception
texts. -/
theorem set_time_not_nothing (env : ClockEnv) (st : TMState) (t : DateTime) :
    ¬((TimeManager.set_system_time env st t).ok = false ∧
      (TimeManager.set_system_time env st t).msg = "没有可撤销的时间更改") := by
  rcases env with ⟨adm, l, w⟩
  cases adm
  · intro hpair
    simp [TimeManager.set_system_time] at hpair
  · cases w with
    | ok =>
        intro hpair
        simp [TimeManager.set_system_time] at hpair
    | osFail c =>
        intro hpair
        simp [TimeManager.set_system_time] at hpair
        exact fail_msg_ne_nothing (toString c) hpair
    | exn e =>
        intro hpair
        simp [TimeManager.set_system_time] at hpair
        exact exn_msg_ne_nothing e hpair

/-! Claim theorems. -/

/-- C1 counterexample: with elevation held and an occupied undo slot, a
call to `undo_last_change` leaves `can_undo` true — the inner
`set_system_time` re-captures the local time into the slot — refuting
the claim that `can_undo` is false immediately after any call to
`undo_last_change`. -/
theorem undo_can_leave_undo_available :
    TimeManager.can_undo
      (TimeManager.undo_last_change envAdminOk stOccupied).state = true := by
  decide

/-- C1 amended: `can_undo` is false immediately after construction, and
immediately after `undo_last_change` it is false exactly when the call
did not reach the privileged write path: after an undo it equals
(slot was occupied AND elevation held), because an elevated undo
re-captures the local time via the inner `set_system_time`. -/
theorem can_undo_after_construction_and_undo :
    TimeManager.can_undo TMState.init = false ∧
    ∀ (env : ClockEnv) (st : TMState),
      TimeManager.can_undo (TimeManager.undo_last_change env st).state
        = (TimeManager.can_undo st && env.isAdmin) := by
  refine ⟨by decide, ?_⟩
  intro env st
  rw [undo_state_eq env st]
  cases hb : TimeManager.can_undo st && env.isAdmin <;>
    simp [hb, TimeManager.can_undo]

/-- C2 counterexample: with elevation held and an occupied undo slot,
two consecutive calls to `undo_last_change` both proceed — the second
succeeds rather than failing with the nothing-to-undo result — refuting
the claim that the second of two consecutive undo calls always fails
with `NothingToUndo`. -/
theorem second_undo_can_succeed :
    (TimeManager.undo_last_change envAdminOk
        (TimeManager.undo_last_change envAdminOk stOccupied).state).ok = true ∧
    (TimeManager.undo_last_change envAdminOk
        (TimeManager.undo_last_change envAdminOk stOccupied).state).msg
      ≠ "没有可撤销的时间更改" := by
  decide

/-- C2 amended: after two consecutive `undo_last_change` calls, the
second call fails with the nothing-to-undo result if and only if the
first call did not reach the privileged write path (empty slot or no
elevation); when the slot was occupied and elevation was held, the first
call re-records the local time and the second call does not report
`NothingToUndo`. -/
theorem second_undo_nothing_iff (env1 env2 : ClockEnv) (st : TMState) :
    ((TimeManager.undo_last_change env2
        (TimeManager.undo_last_change env1 st).state).ok = false ∧
     (TimeManager.undo_last_change env2
        (TimeManager.undo_last_change env1 st).state).msg = "没有可撤销的时间更改")
      ↔ (TimeManager.can_undo st && env1.isAdmin) = false := by
  rw [undo_state_eq env1 st]
  cases hb : TimeManager.can_undo st && env1.isAdmin
  · simp [hb, TimeManager.undo_last_change]
  · have hne := set_time_not_nothing env2 ⟨none⟩ (TimeManager.get_local_time env1)
    simp [hb, TimeManager.undo_last_change]
    exact fun h1 h2 => hne ⟨h1, h2⟩

/-- C3: for every `set_system_time` call past the privilege check, the
current local time is captured into the undo slot before the privileged
write is issued (the trace reads the local time first, and the slot is
filled in every write outcome, including failures); consequently after a
successful call `can_undo` is true and the remembered value is the local
time observed immediately before the call. -/
theorem set_time_captures_prior_local_time (env : ClockEnv) (st : TMState)
    (t : DateTime) (h : env.isAdmin = true) :
    (TimeManager.set_system_time env st t).state.lastTime
        = some (TimeManager.get_local_time env) ∧
    (TimeManager.set_system_time env st t).trace
        = [OsAction.getLocalTime,
           OsAction.writeClock (TimeManager.toSystemTime t)] ∧
    ((TimeManager.set_system_time env st t).ok = true →
      TimeManager.can_undo (TimeManager.set_system_time env st t).state = true) := by
  rcases env with ⟨adm, l, w⟩
  subst h
  cases w <;>
    simp [TimeManager.set_system_time, TimeManager.can_undo]

/-- C3 witness: the elevated sample environment satisfies the premise,
and the undo slot holds the observed local time after the call. -/
theorem set_time_captures_prior_local_time_witness :
    (TimeManager.set_system_time envAdminOk TMState.init sampleDT).state.lastTime
      = some (TimeManager.get_local_time envAdminOk) :=
  (set_time_captures_prior_local_time envAdminOk TMState.init sampleDT rfl).1

/-- C9: without elevation, `set_system_time` returns the permission
failure, performs no OS action, and leaves the state — in particular the
undo slot — unchanged. -/
theorem set_time_permission_denied (env : ClockEnv) (st : TMState)
    (t : DateTime) (h : env.isAdmin = false) :
    TimeManager.set_system_time env st t
      = ⟨st, false, "需要管理员权限才能修改系统时间", []⟩ := by
  rcases env with ⟨adm, l, w⟩
  subst h
  simp [TimeManager.set_system_time]

/-- C9 witness: the non-elevated sample environment satisfies the
premise and the call leaves the initial state unchanged. -/
theorem set_time_permission_denied_witness :
    TimeManager.set_system_time envNoAdminClock TMState.init sampleDT
      = ⟨TMState.init, false, "需要管理员权限才能修改系统时间", []⟩ :=
  set_time_permission_denied envNoAdminClock TMState.init sampleDT rfl

/-- C10: every `SYSTEMTIME` written to the OS clock by `set_system_time`
carries the whole-second fields of the argument and a zero
`wMilliseconds` field: the written time is truncated to whole seconds,
whatever the sub-second component of the argument. -/
theorem written_time_truncated (env : ClockEnv) (st : TMState) (t : DateTime)
    (s' : SYSTEMTIME)
    (h : OsAction.writeClock s' ∈ (TimeManager.set_system_time env st t).trace) :
    s' = ⟨t.year, t.month, 0, t.day, t.hour, t.minute, t.second, 0⟩ ∧
    s'.wMilliseconds = 0 := by
  rcases env with ⟨adm, l, w⟩
  cases adm
  · simp [TimeManager.set_system_time] at h
  · cases w <;>
      simp [TimeManager.set_system_time, TimeManager.toSystemTime] at h <;>
      exact ⟨h, by rw [h]⟩

/-- C10 witness: for the sample argument (with sub-second component
250000 microseconds) the written record is the truncated one. -/
theorem written_time_truncated_witness :
    TimeManager.toSystemTime sampleDT
      = ⟨sampleDT.year, sampleDT.month, 0, sampleDT.day, sampleDT.hour,
         sampleDT.minute, sampleDT.second, 0⟩ ∧
    (TimeManager.toSystemTime sampleDT).wMilliseconds = 0 :=
  written_time_truncated envAdminOk TMState.init sampleDT
    (TimeManager.toSystemTime sampleDT) (by decide)

/-- C8 counterexample: at `days = 3000000` from the sample local time
the CPython addition leaves the representable year range, raising
`OverflowError`; `adjust_time` propagates it and never returns a
`set_system_time` result — refuting the claim for all integer
arguments. -/
theorem adjust_time_overflow_raises :
    addTimedelta (TimeManager.get_local_time envAdminOk) 3000000 0 0 = none ∧
    TimeManager.adjust_time envAdminOk TMState.init 3000000 0 0 = none := by
  decide

/-- C8 amended: `adjust_time` reads the current local time and adds the
`timedelta(days, hours, minutes)`; whenever that sum is representable
(ordinal within `1.._MAXORDINAL`) it returns exactly the result of
`set_system_time` on the sum — same resulting state, same success flag,
same message — performing no OS action of its own beyond the local-time
read; when the sum overflows, the addition's `OverflowError` propagates
uncaught: `set_system_time` is never called, no result is returned and
no state change occurs. -/
theorem adjust_time_delegates (env : ClockEnv) (st : TMState) (d hh mm : Int) :
    (∀ t : DateTime,
      addTimedelta (TimeManager.get_local_time env) d hh mm = some t →
      TimeManager.adjust_time env st d hh mm
        = some ⟨(TimeManager.set_system_time env st t).state,
                (TimeManager.set_system_time env st t).ok,
                (TimeManager.set_system_time env st t).msg,
                OsAction.getLocalTime
                  :: (TimeManager.set_system_time env st t).trace⟩) ∧
    (addTimedelta (TimeManager.get_local_time env) d hh mm = none →
      TimeManager.adjust_time env st d hh mm = none) := by
  constructor
  · intro t ht
    simp [TimeManager.adjust_time, ht]
  · intro ht
    simp [TimeManager.adjust_time, ht]

/-- C8 witness: from the sample local time, a 3-day adjustment stays in
range and delegates to `set_system_time` on the computed sum, while a
3000000-day adjustment overflows and yields no result. -/
theorem adjust_time_delegates_witness :
    TimeManager.adjust_time envAdminOk TMState.init 3 0 0
      = some ⟨(TimeManager.set_system_time envAdminOk TMState.init
                  ⟨2024, 5, 20, 12, 30, 45, 500000⟩).state,
              (TimeManager.set_system_time envAdminOk TMState.init
                  ⟨2024, 5, 20, 12, 30, 45, 500000⟩).ok,
              (TimeManager.set_system_time envAdminOk TMState.init
                  ⟨2024, 5, 20, 12, 30, 45, 500000⟩).msg,
              OsAction.getLocalTime
                :: (TimeManager.set_system_time envAdminOk TMState.init
                    ⟨2024, 5, 20, 12, 30, 45, 500000⟩).trace⟩ ∧
    TimeManager.adjust_time envAdminOk TMState.init 3000000 0 0 = none :=
  ⟨(adjust_time_delegates envAdminOk TMState.init 3 0 0).1
      ⟨2024, 5, 20, 12, 30, 45, 500000⟩ (by decide),
   (adjust_time_delegates envAdminOk TMState.init 3000000 0 0).2 (by decide)⟩

/-- C4 counterexample: without elevation, `check_time_service_status`
still executes both of its `sc` queries and reports the running state
rather than a permission failure (and `get_sync_status` likewise issues
its query), refuting the claim that every synchronizer operation fails
with `PermissionDenied` without performing its OS action. -/
theorem status_query_runs_without_privilege :
    (WindowsTimeSync.check_time_service_status envNoAdmin ExecSt.start).2.issued
        = ["sc query w32time", "sc qc w32time"] ∧
    (WindowsTimeSync.check_time_service_status envNoAdmin ExecSt.start).1.1
        = true ∧
    (WindowsTimeSync.get_sync_status envNoAdmin ExecSt.start).2.issued
        = ["w32tm /query /status"] := by
  decide

/-- C4 amended: without elevation, `enable_time_service`,
`start_time_service`, `configure_ntp_server`, `sync_time_immediately`
fail with their permission messages issuing no command, and
`sync_system_time` fails through the configuration stage's permission
check issuing no command; `check_time_service_status` and
`get_sync_status` execute their status queries regardless of
privilege. -/
theorem sync_ops_without_privilege (env : SyncEnv) (s : ExecSt)
    (h : env.isAdmin = false) :
    WindowsTimeSync.enable_time_service env s
        = ((false, "需要管理员权限才能启用时间服务"), s) ∧
    WindowsTimeSync.start_time_service env s
        = ((false, "需要管理员权限才能启动时间服务"), s) ∧
    (∀ lst : Option (List String),
      WindowsTimeSync.configure_ntp_server env lst s
        = ((false, "需要管理员权限才能配置 NTP 服务器"), s)) ∧
    WindowsTimeSync.sync_time_immediately env s
        = ((false, "需要管理员权限才能同步时间"), s) ∧
    WindowsTimeSync.sync_system_time env s
        = ((false, "配置 NTP 服务器失败: 需要管理员权限才能配置 NTP 服务器"), s) ∧
    (WindowsTimeSync.check_time_service_status env s).2.issued
        = s.issued ++ ["sc query w32time", "sc qc w32time"] ∧
    (WindowsTimeSync.get_sync_status env s).2.issued
        = s.issued ++ ["w32tm /query /status"] := by
  rcases env with ⟨adm, resp⟩
  cases adm
  · refine ⟨rfl, rfl, fun lst => rfl, rfl, rfl, ?_, rfl⟩
    simp [WindowsTimeSync.check_time_service_status, WindowsTimeSync.run_command,
      List.append_assoc]
  · simp at h

/-- C4 witness: the non-elevated sample environment satisfies the
premise; the start operation returns its permission failure without
issuing a command. -/
theorem sync_ops_without_privilege_witness :
    WindowsTimeSync.start_time_service envNoAdmin ExecSt.start
      = ((false, "需要管理员权限才能启动时间服务"), ExecSt.start) :=
  (sync_ops_without_privilege envNoAdmin ExecSt.start rfl).2.1

/-- C5 counterexample: in a run whose configuration stage fails (here,
for lack of elevation), `sync_system_time` returns the configuration
failure message with the added "配置 NTP 服务器失败: " marker, not
verbatim — the two message strings differ. -/
theorem full_sync_message_not_verbatim :
    (WindowsTimeSync.configure_ntp_server envNoAdmin none ExecSt.start).1.1
        = false ∧
    (WindowsTimeSync.sync_system_time envNoAdmin ExecSt.start).1.2
      ≠ (WindowsTimeSync.configure_ntp_server envNoAdmin none ExecSt.start).1.2 := by
  decide

/-- C5 amended: whenever the configuration stage of `sync_system_time`
fails, the resync stage is never attempted (the execution state is
exactly the configuration stage's) and the returned message is the
configuration failure message prefixed by the marker text
"配置 NTP 服务器失败: " (not verbatim). -/
theorem full_sync_config_failure_aborts (env : SyncEnv)
    (h : (WindowsTimeSync.configure_ntp_server env none ExecSt.start).1.1
          = false) :
    WindowsTimeSync.sync_system_time env ExecSt.start
      = ((false, "配置 NTP 服务器失败: "
            ++ (WindowsTimeSync.configure_ntp_server env none ExecSt.start).1.2),
         (WindowsTimeSync.configure_ntp_server env none ExecSt.start).2) := by
  simp [WindowsTimeSync.sync_system_time, h]

/-- C5 witness: the non-elevated sample environment makes the
configuration stage fail, and the full sync aborts with the wrapped
message and the configuration stage's execution state. -/
theorem full_sync_config_failure_witness :
    WindowsTimeSync.sync_system_time envNoAdmin ExecSt.start
      = ((false, "配置 NTP 服务器失败: "
            ++ (WindowsTimeSync.configure_ntp_server envNoAdmin none
                  ExecSt.start).1.2),
         (WindowsTimeSync.configure_ntp_server envNoAdmin none ExecSt.start).2) :=
  full_sync_config_failure_aborts envNoAdmin (by decide)

/-- C6: when the configuration write is reached (elevated, service
started), `configure_ntp_server` applied to the explicit empty list
issues the configuration command with an empty manual peer list, while
the unset argument (`none`) issues it with the built-in default server
list. -/
theorem configure_empty_list_still_writes (env : SyncEnv)
    (h1 : env.isAdmin = true)
    (h2 : (WindowsTimeSync.start_time_service env ExecSt.start).1.1 = true) :
    WindowsTimeSync.configCommand ""
        ∈ (WindowsTimeSync.configure_ntp_server env (some [])
            ExecSt.start).2.issued ∧
    WindowsTimeSync.configCommand "ntp.aliyun.com,ntp2.aliyun.com,ntp3.aliyun.com"
        ∈ (WindowsTimeSync.configure_ntp_server env none
            ExecSt.start).2.issued := by
  have e1 : String.intercalate "," ([] : List String) = "" := rfl
  have e2 : String.intercalate ","
      (List.take 3 ["ntp.aliyun.com", "ntp2.aliyun.com", "ntp3.aliyun.com"])
      = "ntp.aliyun.com,ntp2.aliyun.com,ntp3.aliyun.com" := rfl
  constructor <;>
  · simp only [WindowsTimeSync.configure_ntp_server, h1, h2,
      WindowsTimeSync.ALIYUN_NTP_SERVERS, e1, e2, Bool.not_true,
      Bool.false_eq_true, if_false, ite_false]
    split <;> (try split) <;>
      simp [WindowsTimeSync.run_command, List.mem_append]

/-- C6 witness: in the always-succeeding elevated environment the
premises hold and both configuration commands are issued in their
respective runs. -/
theorem configure_empty_list_still_writes_witness :
    WindowsTimeSync.configCommand ""
        ∈ (WindowsTimeSync.configure_ntp_server envAllOk (some [])
            ExecSt.start).2.issued ∧
    WindowsTimeSync.configCommand "ntp.aliyun.com,ntp2.aliyun.com,ntp3.aliyun.com"
        ∈ (WindowsTimeSync.configure_ntp_server envAllOk none
            ExecSt.start).2.issued :=
  configure_empty_list_still_writes envAllOk rfl (by decide)

/-- Helper: the status message reported when the query shows the service
running. -/
theorem runStateOf_running (p : Bool × String)
    (hp : (p.1 && containsStr p.2 "RUNNING") = true) :
    (WindowsTimeSync.runStateOf p).2 = "Windows 时间服务正在运行" := by
  rcases p with ⟨b, out⟩
  rcases Bool.and_eq_true_iff.mp hp with ⟨hb, hc⟩
  have hb' : b = true := hb
  have hc' : containsStr out "RUNNING" = true := hc
  subst hb'
  simp [WindowsTimeSync.runStateOf, hc']

/-- Helper: master case equation for a fresh `start_time_service` run
under elevation: already running, disabled with enable outcome, or
direct start attempt, each with its explicit command record. -/
theorem start_eq_cases (env : SyncEnv) (h : env.isAdmin = true) :
    WindowsTimeSync.start_time_service env ExecSt.start
      = (if serviceRunningB env then
           ((true, "Windows 时间服务正在运行"),
            ⟨2, ["sc query w32time", "sc qc w32time"]⟩)
         else if serviceDisabledB env then
           (if (env.resp 2).1 then
              WindowsTimeSync.attempt_start_service env
                (WindowsTimeSync.startTypeOf (env.resp 1))
                ⟨3, ["sc query w32time", "sc qc w32time",
                     "sc config w32time start= auto"]⟩
            else
              ((false, "无法启用时间服务: "
                  ++ ("启用时间服务失败: " ++ (env.resp 2).2)),
               ⟨3, ["sc query w32time", "sc qc w32time",
                    "sc config w32time start= auto"]⟩))
         else
           WindowsTimeSync.attempt_start_service env
             (WindowsTimeSync.startTypeOf (env.resp 1))
             ⟨2, ["sc query w32time", "sc qc w32time"]⟩) := by
  have hR' : ((env.resp 0).1 && containsStr (env.resp 0).2 "RUNNING")
      = serviceRunningB env := rfl
  have hD' : ((env.resp 1).1 && containsStr (env.resp 1).2 "DISABLED")
      = serviceDisabledB env := rfl
  cases hR : serviceRunningB env <;> cases hD : serviceDisabledB env
  · simp only [WindowsTimeSync.start_time_service, h, check_eq, runStateOf_fst,
      startTypeOf_beq, ExecSt.start, List.nil_append, Nat.zero_add, hR', hD',
      hR, hD, Bool.not_true, Bool.false_eq_true, if_false, if_true, ite_false,
      ite_true]
  · simp only [WindowsTimeSync.start_time_service, h, check_eq, runStateOf_fst,
      startTypeOf_beq, ExecSt.start, List.nil_append, Nat.zero_add, hR', hD',
      hR, hD, Bool.not_true, Bool.false_eq_true, if_false, if_true, ite_false,
      ite_true]
    rw [enable_eq env ⟨2, ["sc query w32time", "sc qc w32time"]⟩ h]
    cases hE : (env.resp 2).1 <;> simp [hE]
  · simp only [WindowsTimeSync.start_time_service, h, check_eq, runStateOf_fst,
      startTypeOf_beq, ExecSt.start, List.nil_append, Nat.zero_add, hR', hD',
      hR, hD, Bool.not_true, Bool.false_eq_true, if_false, if_true, ite_false,
      ite_true]
    rw [runStateOf_running (env.resp 0) hR]
  · simp only [WindowsTimeSync.start_time_service, h, check_eq, runStateOf_fst,
      startTypeOf_beq, ExecSt.start, List.nil_append, Nat.zero_add, hR', hD',
      hR, hD, Bool.not_true, Bool.false_eq_true, if_false, if_true, ite_false,
      ite_true]
    rw [runStateOf_running (env.resp 0) hR]

/-- C7 counterexample: with elevation, service stopped, startup mode
automatic, a failing start command (output "boom", no "already running"
text) and a failing re-registration, `start_time_service` issues the
re-registration but does not retry the start: the start command is
issued exactly once, refuting the claim that a failed initial start is
always followed by exactly one retry. -/
theorem start_service_no_retry_when_register_fails :
    (envC7.resp 2).1 = false ∧
    WindowsTimeSync.alreadyB (envC7.resp 2).2 = false ∧
    "w32tm /register"
        ∈ (WindowsTimeSync.start_time_service envC7 ExecSt.start).2.issued ∧
    ((WindowsTimeSync.start_time_service envC7 ExecSt.start).2.issued.count
        "net start w32time") = 1 ∧
    (WindowsTimeSync.start_time_service envC7 ExecSt.start).1
      = (false, "启动时间服务失败: boom") := by
  decide

/-- C7 amended: under elevation, `start_time_service` follows exactly
these steps: if the service is already running it succeeds without
issuing a start command; if the startup mode is Disabled it enables the
service first, aborting (with no start command) when that fails; it then
issues the start command; on success, or on failure with "already
running" output (treated as success), it stops after that single start;
otherwise it re-registers the time-service component and, only if the
re-registration succeeds, re-applies the enable when the mode was
Disabled and retries the start exactly once, while a failed
re-registration returns the original failure without any retry; in
every case at most two start commands are issued. -/
theorem start_service_fallback_steps (env : SyncEnv) (h : env.isAdmin = true) :
    (serviceRunningB env = true →
      (WindowsTimeSync.start_time_service env ExecSt.start).1
          = (true, "Windows 时间服务正在运行")
        ∧ countStart env = 0) ∧
    (serviceRunningB env = false → serviceDisabledB env = true →
      (env.resp 2).1 = false →
      (WindowsTimeSync.start_time_service env ExecSt.start).1.1 = false
        ∧ countStart env = 0
        ∧ ((WindowsTimeSync.start_time_service env ExecSt.start).2.issued.count
            "w32tm /register") = 0) ∧
    (serviceRunningB env = false →
      (serviceDisabledB env = true → (env.resp 2).1 = true) →
      (((env.resp (startRespIdx env)).1 = true →
          (WindowsTimeSync.start_time_service env ExecSt.start).1
              = (true, "Windows 时间服务启动成功")
            ∧ countStart env = 1) ∧
       ((env.resp (startRespIdx env)).1 = false →
          WindowsTimeSync.alreadyB (env.resp (startRespIdx env)).2 = true →
          (WindowsTimeSync.start_time_service env ExecSt.start).1
              = (true, "Windows 时间服务已在运行")
            ∧ countStart env = 1) ∧
       ((env.resp (startRespIdx env)).1 = false →
          WindowsTimeSync.alreadyB (env.resp (startRespIdx env)).2 = false →
          ((WindowsTimeSync.start_time_service env ExecSt.start).2.issued.count
              "w32tm /register") = 1
            ∧ ((env.resp (startRespIdx env + 1)).1 = true →
                countStart env = 2
                  ∧ ((WindowsTimeSync.start_time_service env
                        ExecSt.start).2.issued.count
                      "sc config w32time start= auto")
                      = (if serviceDisabledB env = true then 2 else 0))
            ∧ ((env.resp (startRespIdx env + 1)).1 = false →
                countStart env = 1
                  ∧ (WindowsTimeSync.start_time_service env ExecSt.start).1
                      = (false, "启动时间服务失败: "
                          ++ (env.resp (startRespIdx env)).2))))) ∧
    countStart env ≤ 2 := by
  have hbeq := startTypeOf_beq (env.resp 1)
  refine ⟨?_, ?_, ?_, ?_⟩
  · intro hrun
    simp only [countStart]
    rw [start_eq_cases env h]
    simp [hrun]
  · intro hrun hdis hen
    simp only [countStart]
    rw [start_eq_cases env h]
    simp [hrun, hdis, hen]
  · intro hrun hent
    cases hdis : serviceDisabledB env
    · have hidx : startRespIdx env = 2 := by simp [startRespIdx, hdis]
      rw [hidx]
      have hd : (WindowsTimeSync.startTypeOf (env.resp 1) == "已禁用") = false :=
        hbeq.trans hdis
      simp only [countStart]
      rw [start_eq_cases env h]
      simp only [hrun, hdis, Bool.false_eq_true, if_false, ite_false]
      refine ⟨?_, ?_, ?_⟩
      · intro hs
        rw [attempt_eq_ok env (WindowsTimeSync.startTypeOf (env.resp 1))
          ⟨2, ["sc query w32time", "sc qc w32time"]⟩ hs]
        exact ⟨rfl, rfl⟩
      · intro hs ha
        rw [attempt_eq_already env (WindowsTimeSync.startTypeOf (env.resp 1))
          ⟨2, ["sc query w32time", "sc qc w32time"]⟩ hs ha]
        exact ⟨rfl, rfl⟩
      · intro hs ha
        refine ⟨?_, ?_, ?_⟩
        · cases hr : (env.resp 3).1
          · rw [attempt_eq_regfail env (WindowsTimeSync.startTypeOf (env.resp 1))
              ⟨2, ["sc query w32time", "sc qc w32time"]⟩ hs ha hr]
            rfl
          · rw [attempt_eq_reg_nodis env (WindowsTimeSync.startTypeOf (env.resp 1))
              ⟨2, ["sc query w32time", "sc qc w32time"]⟩ hs ha hr hd]
            rfl
        · intro hr
          rw [attempt_eq_reg_nodis env (WindowsTimeSync.startTypeOf (env.resp 1))
            ⟨2, ["sc query w32time", "sc qc w32time"]⟩ hs ha hr hd]
          exact ⟨rfl, rfl⟩
        · intro hr
          rw [attempt_eq_regfail env (WindowsTimeSync.startTypeOf (env.resp 1))
            ⟨2, ["sc query w32time", "sc qc w32time"]⟩ hs ha hr]
          exact ⟨rfl, rfl⟩
    · have hen : (env.resp 2).1 = true := hent hdis
      have hidx : startRespIdx env = 3 := by simp [startRespIdx, hdis]
      rw [hidx]
      have hd : (WindowsTimeSync.startTypeOf (env.resp 1) == "已禁用") = true :=
        hbeq.trans hdis
      simp only [countStart]
      rw [start_eq_cases env h]
      simp only [hrun, hdis, hen, Bool.false_eq_true, if_false, if_true,
        ite_false, ite_true]
      refine ⟨?_, ?_, ?_⟩
      · intro hs
        rw [attempt_eq_ok env (WindowsTimeSync.startTypeOf (env.resp 1))
          ⟨3, ["sc query w32time", "sc qc w32time",
               "sc config w32time start= auto"]⟩ hs]
        exact ⟨rfl, rfl⟩
      · intro hs ha
        rw [attempt_eq_already env (WindowsTimeSync.startTypeOf (env.resp 1))
          ⟨3, ["sc query w32time", "sc qc w32time",
               "sc config w32time start= auto"]⟩ hs ha]
        exact ⟨rfl, rfl⟩
      · intro hs ha
        refine ⟨?_, ?_, ?_⟩
        · cases hr : (env.resp 4).1
          · rw [attempt_eq_regfail env (WindowsTimeSync.startTypeOf (env.resp 1))
              ⟨3, ["sc query w32time", "sc qc w32time",
                   "sc config w32time start= auto"]⟩ hs ha hr]
            rfl
          · rw [attempt_eq_reg_dis env (WindowsTimeSync.startTypeOf (env.resp 1))
              ⟨3, ["sc query w32time", "sc qc w32time",
                   "sc config w32time start= auto"]⟩ h hs ha hr hd]
            rfl
        · intro hr
          rw [attempt_eq_reg_dis env (WindowsTimeSync.startTypeOf (env.resp 1))
            ⟨3, ["sc query w32time", "sc qc w32time",
                 "sc config w32time start= auto"]⟩ h hs ha hr hd]
          exact ⟨rfl, rfl⟩
        · intro hr
          rw [attempt_eq_regfail env (WindowsTimeSync.startTypeOf (env.resp 1))
            ⟨3, ["sc query w32time", "sc qc w32time",
                 "sc config w32time start= auto"]⟩ hs ha hr]
          exact ⟨rfl, rfl⟩
  · simp only [countStart]
    rw [start_eq_cases env h]
    cases hrun : serviceRunningB env
    · cases hdis : serviceDisabledB env
      · simp only [hrun, hdis, Bool.false_eq_true, if_false, ite_false]
        have hd : (WindowsTimeSync.startTypeOf (env.resp 1) == "已禁用") = false :=
          hbeq.trans hdis
        cases hs : (env.resp 2).1
        · cases ha : WindowsTimeSync.alreadyB (env.resp 2).2
          · cases hr : (env.resp 3).1
            · rw [attempt_eq_regfail env (WindowsTimeSync.startTypeOf (env.resp 1))
                ⟨2, ["sc query w32time", "sc qc w32time"]⟩ hs ha hr]
              exact (by decide : (1 : Nat) ≤ 2)
            · rw [attempt_eq_reg_nodis env (WindowsTimeSync.startTypeOf (env.resp 1))
                ⟨2, ["sc query w32time", "sc qc w32time"]⟩ hs ha hr hd]
              exact (by decide : (2 : Nat) ≤ 2)
          · rw [attempt_eq_already env (WindowsTimeSync.startTypeOf (env.resp 1))
              ⟨2, ["sc query w32time", "sc qc w32time"]⟩ hs ha]
            exact (by decide : (1 : Nat) ≤ 2)
        · rw [attempt_eq_ok env (WindowsTimeSync.startTypeOf (env.resp 1))
            ⟨2, ["sc query w32time", "sc qc w32time"]⟩ hs]
          exact (by decide : (1 : Nat) ≤ 2)
      · have hd : (WindowsTimeSync.startTypeOf (env.resp 1) == "已禁用") = true :=
          hbeq.trans hdis
        cases hen : (env.resp 2).1
        · simp [hrun, hdis, hen]
        · simp only [hrun, hdis, hen, Bool.false_eq_true, if_false, if_true,
            ite_false, ite_true]
          cases hs : (env.resp 3).1
          · cases ha : WindowsTimeSync.alreadyB (env.resp 3).2
            · cases hr : (env.resp 4).1
              · rw [attempt_eq_regfail env
                  (WindowsTimeSync.startTypeOf (env.resp 1))
                  ⟨3, ["sc query w32time", "sc qc w32time",
                       "sc config w32time start= auto"]⟩ hs ha hr]
                exact (by decide : (1 : Nat) ≤ 2)
              · rw [attempt_eq_reg_dis env
                  (WindowsTimeSync.startTypeOf (env.resp 1))
                  ⟨3, ["sc query w32time", "sc qc w32time",
                       "sc config w32time start= auto"]⟩ h hs ha hr hd]
                exact (by decide : (2 : Nat) ≤ 2)
            · rw [attempt_eq_already env
                (WindowsTimeSync.startTypeOf (env.resp 1))
                ⟨3, ["sc query w32time", "sc qc w32time",
                     "sc config w32time start= auto"]⟩ hs ha]
              exact (by decide : (1 : Nat) ≤ 2)
          · rw [attempt_eq_ok env (WindowsTimeSync.startTypeOf (env.resp 1))
              ⟨3, ["sc query w32time", "sc qc w32time",
                   "sc config w32time start= auto"]⟩ hs]
            exact (by decide : (1 : Nat) ≤ 2)
    · simp [hrun]

/-- C7 witness: in the elevated always-running environment the premise
holds and the already-running branch applies with no start command
issued. -/
theorem start_service_fallback_steps_witness :
    (WindowsTimeSync.start_time_service envAllOk ExecSt.start).1
        = (true, "Windows 时间服务正在运行") ∧ countStart envAllOk = 0 :=
  (start_service_fallback_steps envAllOk rfl).1 (by decide)

end Timetool
